import Mathlib

/-!
Shallow embedding of the library-catalog REST API (authors / books / categories)
and proofs about its query, pagination, integrity-check and aggregation logic.

The controllers are embedded as pure functions from a store state and a request
to a response (and, for writes, a successor store state).  The document store
itself (find, countDocuments, sort, skip, limit, aggregate) is modelled by
list operations: a deterministic, stable insertion sort stands in for the
cursor sort, and `List.filter` for filter evaluation.
-/
namespace LibBE

/-! ## Definitions -/

/-! ### Sorting helper

The store sorts query results by a sort specification.  We model it with a
stable insertion sort over a boolean comparator `le` (`le a b = true` meaning
`a` may come before `b`). -/
/-- Insert `a` into `l` in front of the first element `b` with `le a b`. -/
def insertSorted (le : α → α → Bool) (a : α) : List α → List α
  | [] => [a]
  | b :: l => if le a b then a :: b :: l else b :: insertSorted le a l

/-- Stable insertion sort by a boolean comparator. -/
def sortByLe (le : α → α → Bool) : List α → List α
  | [] => []
  | b :: l => insertSorted le b (sortByLe le l)

/-- Lexicographic comparison of character lists, the order the store uses on
string sort keys. -/
def charListLe : List Char → List Char → Bool
  | [], _ => true
  | _ :: _, [] => false
  | a :: as, b :: bs =>
    if a < b then true else if b < a then false else charListLe as bs

/-- Lexicographic string comparison (ascending string sort keys). -/
def strLe (a b : String) : Bool :=
  charListLe a.data b.data

/-! ### Data model

Embedded from the Mongoose schemas.  `Book` follows the schema of the book
model (title, author reference, isbn, pages, genre, description, price,
inStock, rating, timestamps); ratings and prices are JavaScript numbers,
modelled as rationals.  Document ids are modelled as naturals; `createdAt`
timestamps likewise.  The `category` reference and the `Category` collection
belong to the extended variant whose model file is not part of the sources;
they are modelled from the spec. -/
/-- Author document, from the author schema (name required; biography,
nationality, email, website optional). -/
structure Author where
  id : Nat
  name : String
  biography : Option String := none
  nationality : Option String := none
  email : Option String := none
  website : Option String := none
deriving Repr, DecidableEq

/-- Modelled from the spec: the Category entity of the extended variant
(identity, name, slug); its schema file is not among the sources. -/
structure Category where
  id : Nat
  name : String
  slug : String
deriving Repr, DecidableEq

/-- Book document, from the book schema.  The `category` reference field is
modelled from the spec (extended variant); every other field is from the
schema in the sources. -/
structure Book where
  id : Nat
  title : String
  author : Nat
  isbn : Option String := none
  pages : Option Nat := none
  genre : String := "Other"
  description : Option String := none
  price : Option ℚ := none
  inStock : Bool := true
  rating : ℚ := 0
  category : Option Nat := none
  createdAt : Nat := 0
deriving Repr, DecidableEq

/-- The document store: the Authors, Books and (extended variant) Categories
collections. -/
structure Store where
  authors : List Author := []
  books : List Book := []
  categories : List Category := []
deriving Repr, DecidableEq

/-- Mongoose `Author.findById(id)`. -/
def findAuthor (s : Store) (id : Nat) : Option Author :=
  s.authors.find? (fun a => a.id == id)

/-- Mongoose `Book.findById(id)`. -/
def findBook (s : Store) (id : Nat) : Option Book :=
  s.books.find? (fun b => b.id == id)

/-- Mongoose `Category.findById(id)`. -/
def findCategory (s : Store) (id : Nat) : Option Category :=
  s.categories.find? (fun c => c.id == id)

/-! ### Query Builder (books) -/
/-- The recognized query-string parameters of GET /api/books.  A parameter is
`none` when absent from the query string.  `minRating` / `maxRating` carry the
`parseFloat` value of the parameter (the source applies `parseFloat` to the
raw string); `inStock` stays a raw string because the source compares it
against the literal string "true". -/
structure BookListParams where
  genre : Option String := none
  category : Option Nat := none
  inStock : Option String := none
  search : Option String := none
  minRating : Option ℚ := none
  maxRating : Option ℚ := none
deriving Repr, DecidableEq

/-- The filter object assembled by the controllers before calling
`Book.find` / `Book.countDocuments`. -/
structure BookQuery where
  genre : Option String := none
  category : Option Nat := none
  inStock : Option Bool := none
  minRating : Option ℚ := none
  maxRating : Option ℚ := none
  search : Option String := none
deriving Repr, DecidableEq

/-- Filter construction of the extended getAllBooks: `if (genre) query.genre =
genre` (truthy check, so the empty string adds no filter), same for category
and search; `if (inStock !== undefined) query.inStock = inStock === "true"`
(any present value adds the boolean filter); `if (minRating) query.rating =
\x7b $gte \x7d`, `if (maxRating)` likewise. -/
def buildBookQuery (p : BookListParams) : BookQuery :=
  { genre := match p.genre with
      | some g => if g = "" then none else some g
      | none => none
    category := p.category
    inStock := p.inStock.map (fun v => v == "true")
    minRating := p.minRating
    maxRating := p.maxRating
    search := match p.search with
      | some q => if q = "" then none else some q
      | none => none }

/-- Filter construction of the basic getAllBooks (genre, inStock, search
only). -/
def buildBookQueryBasic (p : BookListParams) : BookQuery :=
  { genre := match p.genre with
      | some g => if g = "" then none else some g
      | none => none
    inStock := p.inStock.map (fun v => v == "true")
    search := match p.search with
      | some q => if q = "" then none else some q
      | none => none }

/-- Store-native text-index search over the indexed fields (title,
description).  The tokenization is internal to the store (an external
collaborator); it is modelled as substring containment on the two indexed
fields. -/
def textMatch (q : String) (b : Book) : Bool :=
  decide (q.toList <:+: b.title.toList) ||
    decide (q.toList <:+: (b.description.getD "").toList)

/-- Evaluation of the assembled filter against one book document. -/
def bookMatches (q : BookQuery) (b : Book) : Bool :=
  (match q.genre with | some g => b.genre == g | none => true) &&
  (match q.category with | some c => b.category == some c | none => true) &&
  (match q.inStock with | some v => b.inStock == v | none => true) &&
  (match q.minRating with | some r => decide (r ≤ b.rating) | none => true) &&
  (match q.maxRating with | some r => decide (b.rating ≤ r) | none => true) &&
  (match q.search with | some t => textMatch t b | none => true)

/-- Cursor sort specification of the book list endpoints:
`sort(\x7b createdAt: -1 \x7d)`. -/
def createdAtDesc (a b : Book) : Bool :=
  decide (b.createdAt ≤ a.createdAt)

/-- `Math.ceil(count / limit)` for a positive integral `limit`, as computed
for the `totalPages` field. -/
def jsCeilDiv (count limit : Nat) : Nat :=
  (count + limit - 1) / limit

/-- Uniform success envelope of the paginated list endpoints.  `page` and
`limit` reach the controllers as strings and are coerced to their numeric
values (`limit * 1`, `(page - 1) * limit`, `parseInt(page)`); the embedding
represents them by those numeric values directly. -/
structure ListEnvelope (α : Type) where
  success : Bool
  data : List α
  totalPages : Nat
  currentPage : Nat
  total : Nat
deriving Repr, DecidableEq

/-- getAllBooks of the extended books controller: build the filter, find with
populate / skip / limit / sort, count matching documents, emit the envelope.
The store applies sort before skip and limit regardless of call order. -/
def getAllBooks (s : Store) (page limit : Nat) (p : BookListParams) :
    ListEnvelope Book :=
  let q := buildBookQuery p
  let matching := s.books.filter (bookMatches q)
  let sorted := sortByLe createdAtDesc matching
  let count := matching.length
  { success := true
    data := (sorted.drop ((page - 1) * limit)).take limit
    totalPages := jsCeilDiv count limit
    currentPage := page
    total := count }

/-- getAllBooks of the basic books controller.  The source passes the object
literal `\x7bquery\x7d` to `Book.find`, i.e. a filter whose single condition
is on the unknown path named query, while `countDocuments(query)` receives
the intended filter.  With the strictQuery setting enabled the unknown path
is stripped from the find filter (every document matches); with it disabled
the condition is kept and no document matches.  The `strictQuery` argument
selects between the two behaviors. -/
def getAllBooksBasic (strictQuery : Bool) (s : Store) (page limit : Nat)
    (p : BookListParams) : ListEnvelope Book :=
  let q := buildBookQueryBasic p
  let found := s.books.filter (fun _ => strictQuery)
  let sorted := sortByLe createdAtDesc found
  let count := (s.books.filter (bookMatches q)).length
  { success := true
    data := (sorted.drop ((page - 1) * limit)).take limit
    totalPages := jsCeilDiv count limit
    currentPage := page
    total := count }

/-! ### Query Builder (authors) -/
/-- Case-insensitive regular-expression containment, for patterns without
regex metacharacters: `\x7b $regex: pat, $options: i \x7d`. -/
def ciContains (pat s : String) : Bool :=
  decide (pat.toLower.toList <:+: s.toLower.toList)

/-- Recognized filter parameters of the author list endpoints. -/
structure AuthorListParams where
  search : Option String := none
  nationality : Option String := none
deriving Repr, DecidableEq

/-- Filter of getAllAuthors: `if (nationality) query.nationality =
nationality; if (search) query.name = \x7b $regex: search, $options: i \x7d`
(truthy checks: the empty string adds no filter). -/
def authorMatches (p : AuthorListParams) (a : Author) : Bool :=
  (match p.nationality with
    | some n => if n = "" then true else a.nationality == some n
    | none => true) &&
  (match p.search with
    | some q => if q = "" then true else ciContains q a.name
    | none => true)

/-- Sort comparator of the basic getAllAuthors: `sort(\x7b name: 1 \x7d)`. -/
def authorNameAsc (a b : Author) : Bool :=
  strLe a.name b.name

/-- getAllAuthors of the basic authors controller: fixed name-ascending
sort. -/
def getAllAuthors (s : Store) (page limit : Nat) (p : AuthorListParams) :
    ListEnvelope Author :=
  let matching := s.authors.filter (authorMatches p)
  let sorted := sortByLe authorNameAsc matching
  let count := matching.length
  { success := true
    data := (sorted.drop ((page - 1) * limit)).take limit
    totalPages := jsCeilDiv count limit
    currentPage := page
    total := count }

/-- Ascending comparison of one author field selected by name, for the
computed sort specification `\x7b [sortBy]: sortOrder \x7d` of the extended
getAllAuthors.  Sorting on a path that is not a schema field compares all
documents equal. -/
def authorFieldLe (field : String) (a b : Author) : Bool :=
  if field = "name" then strLe a.name b.name
  else if field = "nationality" then
    match a.nationality, b.nationality with
    | none, _ => true
    | some _, none => false
    | some x, some y => strLe x y
  else true

/-- getAllAuthors of the extended authors controller: `sortBy` defaults to
name, `order` defaults to asc, `sortOrder = order === "asc" ? 1 : -1`. -/
def getAllAuthorsExt (s : Store) (page limit : Nat) (p : AuthorListParams)
    (sortBy : Option String) (order : Option String) : ListEnvelope Author :=
  let sortField := sortBy.getD "name"
  let orderValue := order.getD "asc"
  let le : Author → Author → Bool :=
    if orderValue = "asc" then fun a b => authorFieldLe sortField a b
    else fun a b => authorFieldLe sortField b a
  let matching := s.authors.filter (authorMatches p)
  let sorted := sortByLe le matching
  let count := matching.length
  { success := true
    data := (sorted.drop ((page - 1) * limit)).take limit
    totalPages := jsCeilDiv count limit
    currentPage := page
    total := count }

/-! ### searchAuthors -/
/-- Response of GET /api/authors/search. -/
inductive SearchAuthorsResult where
  | ok (data : List Author) (count : Nat)
  | badRequest (message : String)
deriving Repr, DecidableEq

/-- HTTP status code of a searchAuthors response. -/
def SearchAuthorsResult.status : SearchAuthorsResult → Nat
  | .ok _ _ => 200
  | .badRequest _ => 400

/-- Success flag of a searchAuthors response. -/
def SearchAuthorsResult.success : SearchAuthorsResult → Bool
  | .ok _ _ => true
  | .badRequest _ => false

/-- searchAuthors of the extended authors controller: a falsy `query`
parameter (absent, or the empty string) is rejected with 400 before any store
access; otherwise name or biography must match the pattern
case-insensitively, nationality (when truthy) must match exactly, and the
result is name-sorted and cut to `limit`. -/
def searchAuthors (s : Store) (query : Option String)
    (nationality : Option String) (limit : Nat) : SearchAuthorsResult :=
  match query with
  | none => .badRequest "Search query is required"
  | some q =>
    if q = "" then .badRequest "Search query is required"
    else
      let matching := s.authors.filter (fun a =>
        (ciContains q a.name || ciContains q (a.biography.getD "")) &&
        (match nationality with
          | some n => if n = "" then true else a.nationality == some n
          | none => true))
      let data := (sortByLe authorNameAsc matching).take limit
      .ok data data.length

/-! ### Referential Integrity Guard and writes -/
/-- Request body of POST /api/books.  The embedding models request bodies
that carry an author id; a field is `none` when absent from the body.  The
`category` field belongs to the extended variant. -/
structure BookInput where
  title : Option String := none
  author : Nat
  isbn : Option String := none
  pages : Option Nat := none
  genre : Option String := none
  description : Option String := none
  price : Option ℚ := none
  inStock : Option Bool := none
  rating : Option ℚ := none
  category : Option Nat := none
deriving Repr, DecidableEq

/-- The genre enumeration of the book schema. -/
def genreEnum : List String :=
  ["Fiction", "Non-Fiction", "Science Fiction", "Fantasy", "Mystery",
   "Thriller", "Romance", "Biography", "History", "Science", "Self-Help",
   "Other"]

/-- Schema constraint on isbn: when present, exactly 10 or 13 digits. -/
def isbnFormatOk : Option String → Bool
  | none => true
  | some v => v.toList.all Char.isDigit && (v.length == 10 || v.length == 13)

/-- Schema validation run by the document mapper before an insert: title
required and non-empty, isbn format, pages at least 1, genre in the
enumeration, price non-negative, rating between 0 and 5. -/
def bookInputValid (i : BookInput) : Bool :=
  (match i.title with | some t => !(t == "") | none => false) &&
  isbnFormatOk i.isbn &&
  (match i.pages with | some p => decide (1 ≤ p) | none => true) &&
  (match i.genre with | some g => genreEnum.contains g | none => true) &&
  (match i.price with | some v => decide (0 ≤ v) | none => true) &&
  (match i.rating with | some r => decide (0 ≤ r) && decide (r ≤ 5) | none => true)

/-- The document built by an insert, applying the schema defaults (genre
Other, inStock true, rating 0); `newId` and `now` are the system-generated
id and creation timestamp. -/
def mkBook (i : BookInput) (newId now : Nat) : Book :=
  { id := newId
    title := i.title.getD ""
    author := i.author
    isbn := i.isbn
    pages := i.pages
    genre := i.genre.getD "Other"
    description := i.description
    price := i.price
    inStock := i.inStock.getD true
    rating := i.rating.getD 0
    category := i.category
    createdAt := now }

/-- Response of POST /api/books: created carries status 201, notFound 404,
conflict and invalid 400. -/
inductive CreateBookResult where
  | created (book : Book)
  | notFound (message : String)
  | conflict (message : String)
  | invalid (message : String)
deriving Repr, DecidableEq

/-- HTTP status code of a createBook response. -/
def CreateBookResult.status : CreateBookResult → Nat
  | .created _ => 201
  | .notFound _ => 404
  | .conflict _ => 400
  | .invalid _ => 400

/-- The `Book.create` call shared by both createBook variants: the mapper
validates the document first (failure is caught as a generic 400), then the
insert hits the unique index on isbn (duplicate key error code 11000 is
mapped to the duplicate-ISBN 400).  The unique index is not sparse, so a
second document without an isbn also collides (both index the null key);
option equality on isbn captures exactly that. -/
def createBookDoc (s : Store) (i : BookInput) (newId now : Nat) :
    CreateBookResult × Store :=
  if !(bookInputValid i) then (.invalid "Failed to create book", s)
  else if s.books.any (fun b => b.isbn == i.isbn) then
    (.conflict "Book with this ISBN already exists", s)
  else
    let b := mkBook i newId now
    (.created b, { s with books := s.books ++ [b] })

/-- createBook of the extended books controller: author existence is checked
first, then category existence (when a category is supplied), then the
insert. -/
def createBook (s : Store) (i : BookInput) (newId now : Nat) :
    CreateBookResult × Store :=
  match findAuthor s i.author with
  | none => (.notFound "Author not found", s)
  | some _ =>
    match i.category with
    | some cid =>
      match findCategory s cid with
      | none => (.notFound "Category not found", s)
      | some _ => createBookDoc s i newId now
    | none => createBookDoc s i newId now

/-- createBook of the basic books controller: author existence check, then
the insert (no category reference in the basic schema). -/
def createBookBasic (s : Store) (i : BookInput) (newId now : Nat) :
    CreateBookResult × Store :=
  match findAuthor s i.author with
  | none => (.notFound "Author not found", s)
  | some _ => createBookDoc s i newId now

/-- Response of DELETE /api/authors/:id: ok carries status 200, notFound 404,
conflict 400. -/
inductive DeleteAuthorResult where
  | ok (message : String)
  | notFound (message : String)
  | conflict (message : String)
deriving Repr, DecidableEq

/-- HTTP status code of a deleteAuthor response. -/
def DeleteAuthorResult.status : DeleteAuthorResult → Nat
  | .ok _ => 200
  | .notFound _ => 404
  | .conflict _ => 400

/-- Number of Book documents referencing an author id:
`Book.countDocuments(\x7b author: id \x7d)`. -/
def bookRefCount (s : Store) (id : Nat) : Nat :=
  (s.books.filter (fun b => b.author == id)).length

/-- The conflict message of deleteAuthor, carrying the reference count. -/
def deleteConflictMessage (count : Nat) : String :=
  "Cannot delete author with " ++ toString count ++
    " associated books. Delete books first."

/-- deleteAuthor of the basic authors controller: look the author up (404 if
absent), re-count the referencing books at delete time, refuse with 400 when
the count is positive, otherwise delete by id.  Document ids are unique in
the store, so delete-by-id is removal of every document carrying the id. -/
def deleteAuthor (s : Store) (id : Nat) : DeleteAuthorResult × Store :=
  match findAuthor s id with
  | none => (.notFound "Author not found", s)
  | some _ =>
    let booksCount := bookRefCount s id
    if 0 < booksCount then
      (.conflict (deleteConflictMessage booksCount), s)
    else
      (.ok "Author deleted successfully",
        { s with authors := s.authors.filter (fun a => !(a.id == id)) })

/-- Response of PATCH /api/books/:id/rating: ok carries status 200,
badRequest 400, notFound 404. -/
inductive UpdateBookResult where
  | ok (book : Book) (message : String)
  | badRequest (message : String)
  | notFound (message : String)
deriving Repr, DecidableEq

/-- HTTP status code of an updateBookRating response. -/
def UpdateBookResult.status : UpdateBookResult → Nat
  | .ok _ _ => 200
  | .badRequest _ => 400
  | .notFound _ => 404

/-- updateBookRating of the extended books controller: a missing rating, or
one outside [0, 5], is rejected with 400 before any store access; otherwise
`findByIdAndUpdate` sets the rating on the document with the target id (404
when no such document).  Document ids are unique, so the update maps every
document with the id. -/
def updateBookRating (s : Store) (id : Nat) (rating : Option ℚ) :
    UpdateBookResult × Store :=
  match rating with
  | none => (.badRequest "Rating must be between 0 and 5", s)
  | some r =>
    if r < 0 ∨ 5 < r then (.badRequest "Rating must be between 0 and 5", s)
    else
      match findBook s id with
      | none => (.notFound "Book not found", s)
      | some b =>
        (.ok { b with rating := r } "Book rating updated successfully",
          { s with books := s.books.map (fun x =>
              if x.id == id then { x with rating := r } else x) })

/-! ### Aggregation Engine: top-rated books by category -/
/-- One output group of the top-rated-by-category pipeline.  The $push stage
projects a fixed subset of book fields; the embedding carries the whole
document, which determines that projection. -/
structure CategoryGroup where
  categoryId : Option Nat
  categoryName : Option String
  categorySlug : Option String
  books : List Book
deriving Repr, DecidableEq

/-- The $sort \x7b rating: -1, title: 1 \x7d comparator: rating descending,
ties broken by title ascending. -/
def ratingTitleLe (a b : Book) : Bool :=
  decide (b.rating < a.rating) ||
    (decide (a.rating = b.rating) && strLe a.title b.title)

/-- Sort order on an optional string key: the store sorts a missing or null
key before every string, and strings ascending. -/
def optStrLe : Option String → Option String → Bool
  | none, _ => true
  | some _, none => false
  | some x, some y => strLe x y

/-- The final $sort \x7b categoryName: 1 \x7d comparator.  A group whose
lookup found no category has no categoryName. -/
def groupNameLe (a b : CategoryGroup) : Bool :=
  optStrLe a.categoryName b.categoryName

/-- The $match rating above 0 and $sort rating-descending / title-ascending
stages of the top-rated pipeline: the rated books in pipeline sort order. -/
def ratedSorted (s : Store) : List Book :=
  sortByLe ratingTitleLe (s.books.filter (fun b => decide (0 < b.rating)))

/-- The $group (accumulating $push in sorted arrival order), $slice to 10,
and $lookup / $unwind / $project stages for one group key: a null or
dangling category reference leaves the group without a name or slug. -/
def mkCategoryGroup (s : Store) (k : Option Nat) : CategoryGroup :=
  let info := k.bind (findCategory s)
  { categoryId := k
    categoryName := info.map (fun c => c.name)
    categorySlug := info.map (fun c => c.slug)
    books := ((ratedSorted s).filter (fun b => b.category == k)).take 10 }

/-- The post-pipeline fix-up: the group whose categoryId is null is renamed
to the synthetic Uncategorized group. -/
def renameUncategorized (g : CategoryGroup) : CategoryGroup :=
  if g.categoryId == none then
    { g with categoryName := some "Uncategorized"
             categorySlug := some "uncategorized" }
  else g

/-- getTopRatedBooksByCategory of the extended books controller: keep the
books with rating above 0, sort by rating descending / title ascending,
group by category, slice each group to its first 10 members, look the
category document up, sort the groups by looked-up name (a missing name
sorts before every string), and finally rename the null-category group to
Uncategorized.  The group keys are taken in first-appearance order; their
observable order is fixed by the name sort. -/
def getTopRatedBooksByCategory (s : Store) : List CategoryGroup :=
  let keys := ((ratedSorted s).map (fun b => b.category)).dedup
  (sortByLe groupNameLe (keys.map (mkCategoryGroup s))).map renameUncategorized

/-! ### C8 -/
/-- C8 as stated: the Query Builder adds a boolean stock filter only when the
inStock value is the literal string "true" or "false" (mapped to true and
false); any other present value produces no boolean filter. -/
def c8Statement : Prop :=
  ∀ p : BookListParams,
    ((buildBookQuery p).inStock ≠ none →
      p.inStock = some "true" ∨ p.inStock = some "false") ∧
    ((buildBookQueryBasic p).inStock ≠ none →
      p.inStock = some "true" ∨ p.inStock = some "false") ∧
    (p.inStock = some "true" → (buildBookQuery p).inStock = some true) ∧
    (p.inStock = some "false" → (buildBookQuery p).inStock = some false)

/-! ### C1 -/
/-- Concrete store exhibiting the find-filter slip of the basic getAllBooks:
twelve Fantasy books and one Mystery book whose creation time places it on
page 2 of an unfiltered, creation-time-descending listing. -/
def c1Store : Store :=
  { books :=
      [ { id := 1, title := "a", author := 1, genre := "Fantasy", createdAt := 30 },
        { id := 2, title := "a", author := 1, genre := "Fantasy", createdAt := 29 },
        { id := 3, title := "a", author := 1, genre := "Fantasy", createdAt := 28 },
        { id := 4, title := "a", author := 1, genre := "Fantasy", createdAt := 27 },
        { id := 5, title := "a", author := 1, genre := "Fantasy", createdAt := 26 },
        { id := 6, title := "a", author := 1, genre := "Fantasy", createdAt := 25 },
        { id := 13, title := "m", author := 1, genre := "Mystery", createdAt := 22 },
        { id := 7, title := "a", author := 1, genre := "Fantasy", createdAt := 20 },
        { id := 8, title := "a", author := 1, genre := "Fantasy", createdAt := 19 },
        { id := 9, title := "a", author := 1, genre := "Fantasy", createdAt := 18 },
        { id := 10, title := "a", author := 1, genre := "Fantasy", createdAt := 17 },
        { id := 11, title := "a", author := 1, genre := "Fantasy", createdAt := 16 },
        { id := 12, title := "a", author := 1, genre := "Fantasy", createdAt := 15 } ] }

/-! ### C4 -/
/-- C4 as stated: every create-book request whose isbn equals the isbn of an
already-stored Book is answered with the duplicate-ISBN conflict and no new
Book is persisted. -/
def c4Statement : Prop :=
  ∀ (s : Store) (i : BookInput) (newId now : Nat),
    (∃ b ∈ s.books, b.isbn = i.isbn ∧ i.isbn ≠ none) →
    createBook s i newId now =
      (.conflict "Book with this ISBN already exists", s)

/-- Store for the C4 counterexample: one author (id 1) and one stored book
with isbn 1111111111. -/
def c4Store : Store :=
  { authors := [{ id := 1, name := "Ann" }],
    books := [{ id := 1, title := "x", author := 1, isbn := some "1111111111" }] }

/-- The rated books of one category key, counted:
the $match-filtered books whose category equals the key. -/
def ratedCount (s : Store) (k : Option Nat) : Nat :=
  ((s.books.filter (fun b => decide (0 < b.rating))).filter
    (fun b => b.category == k)).length

/-- C7 as stated: the view contains exactly the rated books, at most 10 per
group, sorted inside each group by rating descending / title ascending, with
the groups sorted ascending by their (rendered) category name and the null
category rendered as the synthetic Uncategorized group. -/
def c7Statement : Prop :=
  ∀ s : Store,
    (∀ b ∈ s.books, 0 < b.rating →
      ∃ g ∈ getTopRatedBooksByCategory s, b ∈ g.books) ∧
    (∀ g ∈ getTopRatedBooksByCategory s, ∀ b ∈ g.books, 0 < b.rating) ∧
    (∀ g ∈ getTopRatedBooksByCategory s, g.books.length ≤ 10) ∧
    (∀ g ∈ getTopRatedBooksByCategory s,
      g.books.Pairwise (fun a b => ratingTitleLe a b = true)) ∧
    ((getTopRatedBooksByCategory s).map (fun g => g.categoryName.getD "")).Pairwise
      (fun x y : String => x ≤ y) ∧
    (∀ g ∈ getTopRatedBooksByCategory s, g.categoryId = none →
      g.categoryName = some "Uncategorized")

/-- Store for the C7 counterexample: one category (Art) holding eleven rated
books, and one rated book without a category. -/
def c7Store : Store :=
  { categories := [{ id := 1, name := "Art", slug := "art" }],
    books :=
      [ { id := 1, title := "b01", author := 1, rating := 5, category := some 1 },
        { id := 2, title := "b02", author := 1, rating := 5, category := some 1 },
        { id := 3, title := "b03", author := 1, rating := 5, category := some 1 },
        { id := 4, title := "b04", author := 1, rating := 5, category := some 1 },
        { id := 5, title := "b05", author := 1, rating := 5, category := some 1 },
        { id := 6, title := "b06", author := 1, rating := 5, category := some 1 },
        { id := 7, title := "b07", author := 1, rating := 5, category := some 1 },
        { id := 8, title := "b08", author := 1, rating := 5, category := some 1 },
        { id := 9, title := "b09", author := 1, rating := 5, category := some 1 },
        { id := 10, title := "b10", author := 1, rating := 5, category := some 1 },
        { id := 11, title := "b11", author := 1, rating := 5, category := some 1 },
        { id := 12, title := "zz", author := 1, rating := 4, category := none } ] }

/-! ## Theorems -/

theorem perm_insertSorted (le : α → α → Bool) (a : α) (l : List α) :
    (insertSorted le a l).Perm (a :: l) := by
  induction l with
  | nil => exact List.Perm.refl _
  | cons b l ih =>
    by_cases h : le a b
    · simp [insertSorted, h]
    · simp only [insertSorted, if_neg h]
      exact (ih.cons b).trans (List.Perm.swap a b l)

theorem perm_sortByLe (le : α → α → Bool) (l : List α) :
    (sortByLe le l).Perm l := by
  induction l with
  | nil => exact List.Perm.refl _
  | cons b l ih =>
    exact (perm_insertSorted le b (sortByLe le l)).trans (ih.cons b)

theorem mem_sortByLe {le : α → α → Bool} {l : List α} {x : α} :
    x ∈ sortByLe le l ↔ x ∈ l :=
  (perm_sortByLe le l).mem_iff

theorem length_sortByLe (le : α → α → Bool) (l : List α) :
    (sortByLe le l).length = l.length :=
  (perm_sortByLe le l).length_eq

theorem pairwise_insertSorted {le : α → α → Bool}
    (htot : ∀ a b, le a b = true ∨ le b a = true)
    (htrans : ∀ a b c, le a b = true → le b c = true → le a c = true)
    (a : α) {l : List α} (hl : l.Pairwise (fun x y => le x y = true)) :
    (insertSorted le a l).Pairwise (fun x y => le x y = true) := by
  induction l with
  | nil => simp [insertSorted]
  | cons b l ih =>
    obtain ⟨hb, hl⟩ := List.pairwise_cons.mp hl
    by_cases h : le a b
    · simp only [insertSorted, if_pos h]
      refine List.Pairwise.cons ?_ (List.Pairwise.cons hb hl)
      intro x hx
      rcases List.mem_cons.mp hx with rfl | hx
      · exact h
      · exact htrans a b x h (hb x hx)
    · simp only [insertSorted, if_neg h]
      refine List.Pairwise.cons ?_ (ih hl)
      intro x hx
      rcases List.mem_cons.mp ((perm_insertSorted le a l).mem_iff.mp hx) with rfl | hxl
      · exact (htot x b).resolve_left h
      · exact hb x hxl

theorem pairwise_sortByLe {le : α → α → Bool}
    (htot : ∀ a b, le a b = true ∨ le b a = true)
    (htrans : ∀ a b c, le a b = true → le b c = true → le a c = true)
    (l : List α) :
    (sortByLe le l).Pairwise (fun x y => le x y = true) := by
  induction l with
  | nil => simp [sortByLe]
  | cons b l ih => exact pairwise_insertSorted htot htrans b ih

/-! ### Helper lemmas -/
theorem find?_map_rating (l : List Book) (id : Nat) (r : ℚ) :
    (l.map (fun x => if x.id == id then { x with rating := r } else x)).find?
        (fun b => b.id == id) =
      (l.find? (fun b => b.id == id)).map (fun b => { b with rating := r }) := by
  induction l with
  | nil => rfl
  | cons x l ih =>
    rw [List.map_cons, List.find?_cons, List.find?_cons]
    by_cases h : x.id = id
    · simp [h]
    · have hx : (x.id == id) = false := beq_eq_false_iff_ne.mpr h
      have hfx : ((if (x.id == id) = true then ({ x with rating := r } : Book) else x).id == id)
          = false := by
        simp [h]
      rw [hfx, hx]
      exact ih

/-! ### C2 -/
/-- C2: deleting an existing Author conflicts with a 400 whose message
carries the current reference count and leaves the store unchanged when at
least one Book references the Author id; when no Book does, the delete
succeeds and the Author is unfindable afterwards. -/
theorem c2_deleteAuthor_guard (s : Store) (id : Nat)
    (h : (findAuthor s id).isSome = true) :
    (0 < bookRefCount s id →
      deleteAuthor s id =
        (.conflict (deleteConflictMessage (bookRefCount s id)), s)) ∧
    (bookRefCount s id = 0 →
      (deleteAuthor s id).1 = .ok "Author deleted successfully" ∧
      (deleteAuthor s id).1.status = 200 ∧
      findAuthor (deleteAuthor s id).2 id = none) := by
  obtain ⟨a, ha⟩ := Option.isSome_iff_exists.mp h
  constructor
  · intro hpos
    simp [deleteAuthor, ha, hpos]
  · intro hzero
    have hns : ¬ 0 < bookRefCount s id := by omega
    refine ⟨by simp [deleteAuthor, ha, hns], by simp [deleteAuthor, ha, hns, DeleteAuthorResult.status], ?_⟩
    have hstore : (deleteAuthor s id).2 =
        { s with authors := s.authors.filter (fun a => !(a.id == id)) } := by
      simp [deleteAuthor, ha, hns]
    rw [hstore]
    simp only [findAuthor]
    rw [List.find?_eq_none]
    intro x hx
    have hne := (List.mem_filter.mp hx).2
    simp at hne
    simp [hne]

/-- Witness for C2: an author referenced by three books is protected with the
count-3 conflict message; an author with no books is deleted and unfindable. -/
theorem c2_deleteAuthor_guard_witness :
    deleteAuthor
        { authors := [{ id := 1, name := "Ann" }],
          books := [{ id := 10, title := "x", author := 1 },
                    { id := 11, title := "y", author := 1 },
                    { id := 12, title := "z", author := 1 }] } 1 =
      (.conflict (deleteConflictMessage 3),
        { authors := [{ id := 1, name := "Ann" }],
          books := [{ id := 10, title := "x", author := 1 },
                    { id := 11, title := "y", author := 1 },
                    { id := 12, title := "z", author := 1 }] }) ∧
    ((deleteAuthor { authors := [{ id := 2, name := "Bea" }] } 2).1 =
        .ok "Author deleted successfully" ∧
      findAuthor (deleteAuthor { authors := [{ id := 2, name := "Bea" }] } 2).2 2 =
        none) := by
  constructor
  · have h := (c2_deleteAuthor_guard
      { authors := [{ id := 1, name := "Ann" }],
        books := [{ id := 10, title := "x", author := 1 },
                  { id := 11, title := "y", author := 1 },
                  { id := 12, title := "z", author := 1 }] } 1 (by decide)).1 (by decide)
    simpa using h
  · have h := (c2_deleteAuthor_guard
      { authors := [{ id := 2, name := "Bea" }] } 2 (by decide)).2 (by decide)
    exact ⟨h.1, h.2.2⟩

/-! ### C3 -/
/-- C3: a create-book request whose author id references no existing Author
is answered with the 404 Author-not-found error and the store is unchanged,
in both createBook variants. -/
theorem c3_createBook_missingAuthor (s : Store) (i : BookInput)
    (newId now : Nat) (h : findAuthor s i.author = none) :
    createBook s i newId now = (.notFound "Author not found", s) ∧
    (createBook s i newId now).1.status = 404 ∧
    createBookBasic s i newId now = (.notFound "Author not found", s) := by
  refine ⟨by simp [createBook, h], ?_, by simp [createBookBasic, h]⟩
  simp [createBook, h, CreateBookResult.status]

/-- Witness for C3: creating a book under the absent author id 5 fails with
404 and adds nothing to a one-author store. -/
theorem c3_createBook_missingAuthor_witness :
    createBook { authors := [{ id := 1, name := "Ann" }] }
        { title := some "Dune", author := 5 } 30 0 =
      (.notFound "Author not found", { authors := [{ id := 1, name := "Ann" }] }) := by
  exact (c3_createBook_missingAuthor { authors := [{ id := 1, name := "Ann" }] }
    { title := some "Dune", author := 5 } 30 0 (by decide)).1

/-! ### C5 -/
/-- C5: a rating-update request with a missing rating or one outside [0, 5]
is rejected with 400 and leaves the store (hence the stored rating)
unchanged; a rating inside [0, 5] on an existing Book is stored. -/
theorem c5_updateBookRating_range (s : Store) (id : Nat) (r? : Option ℚ) :
    (r? = none →
      updateBookRating s id r? = (.badRequest "Rating must be between 0 and 5", s)) ∧
    (∀ r, r? = some r → (r < 0 ∨ 5 < r) →
      updateBookRating s id r? = (.badRequest "Rating must be between 0 and 5", s)) ∧
    (∀ r b, r? = some r → 0 ≤ r → r ≤ 5 → findBook s id = some b →
      (updateBookRating s id r?).1 =
        .ok { b with rating := r } "Book rating updated successfully" ∧
      findBook (updateBookRating s id r?).2 id = some { b with rating := r }) := by
  refine ⟨?_, ?_, ?_⟩
  · intro h
    simp [updateBookRating, h]
  · intro r hr hout
    simp [updateBookRating, hr, hout]
  · intro r b hr h0 h5 hb
    have hin : ¬ (r < 0 ∨ 5 < r) := by
      push_neg
      exact ⟨h0, h5⟩
    refine ⟨by simp [updateBookRating, hr, hin, hb], ?_⟩
    have hnew : findBook
        { s with books := s.books.map (fun x =>
            if x.id == id then { x with rating := r } else x) } id =
        some { b with rating := r } := by
      simp only [findBook] at hb ⊢
      rw [find?_map_rating, hb]
      rfl
    simpa [updateBookRating, hr, hin, hb] using hnew

/-- Witness for C5: rating 7 is rejected and leaves the store alone, a
missing rating is rejected, and rating 4 on book 10 is stored. -/
theorem c5_updateBookRating_range_witness :
    (updateBookRating { books := [{ id := 10, title := "x", author := 1, rating := 2 }] }
        10 (some 7) =
      (.badRequest "Rating must be between 0 and 5",
        { books := [{ id := 10, title := "x", author := 1, rating := 2 }] })) ∧
    (updateBookRating { books := [{ id := 10, title := "x", author := 1, rating := 2 }] }
        10 none =
      (.badRequest "Rating must be between 0 and 5",
        { books := [{ id := 10, title := "x", author := 1, rating := 2 }] })) ∧
    findBook (updateBookRating
        { books := [{ id := 10, title := "x", author := 1, rating := 2 }] }
        10 (some 4)).2 10 =
      some { id := 10, title := "x", author := 1, rating := 4 } := by
  refine ⟨?_, ?_, ?_⟩
  · exact (c5_updateBookRating_range
      { books := [{ id := 10, title := "x", author := 1, rating := 2 }] }
      10 (some 7)).2.1 7 rfl (by norm_num)
  · exact (c5_updateBookRating_range
      { books := [{ id := 10, title := "x", author := 1, rating := 2 }] }
      10 none).1 rfl
  · have h := ((c5_updateBookRating_range
      { books := [{ id := 10, title := "x", author := 1, rating := 2 }] }
      10 (some 4)).2.2 4 { id := 10, title := "x", author := 1, rating := 2 }
      rfl (by norm_num) (by norm_num) (by decide)).2
    simpa using h

/-! ### C6 -/
/-- C6: on the list endpoints (extended getAllBooks, basic getAllAuthors),
for valid page and limit the envelope satisfies currentPage = page and
totalPages = the ceiling of total / limit, where total counts the documents
matching the filter. -/
theorem c6_pagination_envelope (s : Store) (page limit : Nat)
    (pb : BookListParams) (pa : AuthorListParams)
    (hp : 1 ≤ page) (hl : 1 ≤ limit) :
    ((getAllBooks s page limit pb).currentPage = page ∧
      (getAllBooks s page limit pb).total =
        (s.books.filter (bookMatches (buildBookQuery pb))).length ∧
      (getAllBooks s page limit pb).totalPages =
        (getAllBooks s page limit pb).total ⌈/⌉ limit) ∧
    ((getAllAuthors s page limit pa).currentPage = page ∧
      (getAllAuthors s page limit pa).total =
        (s.authors.filter (authorMatches pa)).length ∧
      (getAllAuthors s page limit pa).totalPages =
        (getAllAuthors s page limit pa).total ⌈/⌉ limit) := by
  refine ⟨⟨rfl, rfl, ?_⟩, ⟨rfl, rfl, ?_⟩⟩ <;>
    simp [getAllBooks, getAllAuthors, jsCeilDiv, Nat.ceilDiv_eq_add_pred_div]

/-- Witness for C6: a store of 12 Fantasy books queried with page 2, limit 5
reports totalPages 3 = the ceiling of 12 / 5 and currentPage 2. -/
theorem c6_pagination_envelope_witness :
    (getAllBooks
        { books := (List.range 12).map (fun n =>
            { id := n, title := "b", author := 1, genre := "Fantasy", createdAt := n }) }
        2 5 { genre := some "Fantasy" }).currentPage = 2 ∧
    (getAllBooks
        { books := (List.range 12).map (fun n =>
            { id := n, title := "b", author := 1, genre := "Fantasy", createdAt := n }) }
        2 5 { genre := some "Fantasy" }).total = 12 ∧
    (getAllBooks
        { books := (List.range 12).map (fun n =>
            { id := n, title := "b", author := 1, genre := "Fantasy", createdAt := n }) }
        2 5 { genre := some "Fantasy" }).totalPages = 12 ⌈/⌉ 5 := by
  have h := (c6_pagination_envelope
    { books := (List.range 12).map (fun n =>
        { id := n, title := "b", author := 1, genre := "Fantasy", createdAt := n }) }
    2 5 { genre := some "Fantasy" } {} (by decide) (by decide)).1
  refine ⟨h.1, ?_, ?_⟩
  · rw [h.2.1]
    decide
  · rw [h.2.2, h.2.1]
    congr 1

/-- Counterexample for C8: the present value "yes" also produces a boolean
filter (false), because the source compares any present value against the
literal "true". -/
theorem c8_counterexample : ¬ c8Statement := by
  intro h
  rcases (h { inStock := some "yes" }).1 (by decide) with h2 | h2 <;>
    exact absurd h2 (by decide)

/-- C8 amended: whenever inStock is present, both query builders add the
boolean stock filter whose value is true exactly for the literal string
"true" (so "false" and any other value map to false); an absent parameter
adds no filter. -/
theorem c8_amended_inStock (p : BookListParams) :
    (∀ v, p.inStock = some v →
      (buildBookQuery p).inStock = some (v == "true") ∧
      (buildBookQueryBasic p).inStock = some (v == "true")) ∧
    (p.inStock = none →
      (buildBookQuery p).inStock = none ∧
      (buildBookQueryBasic p).inStock = none) := by
  constructor
  · intro v hv
    constructor <;> simp [buildBookQuery, buildBookQueryBasic, hv]
  · intro hv
    constructor <;> simp [buildBookQuery, buildBookQueryBasic, hv]

/-- Witness for C8 amended: the value "yes" yields the filter false, the
value "true" yields true, an absent parameter yields no filter. -/
theorem c8_amended_inStock_witness :
    (buildBookQuery { inStock := some "yes" }).inStock = some false ∧
    (buildBookQuery { inStock := some "true" }).inStock = some true ∧
    (buildBookQuery { inStock := none }).inStock = none := by
  refine ⟨?_, ?_, ?_⟩
  · have h := ((c8_amended_inStock { inStock := some "yes" }).1 "yes" rfl).1
    rw [h]
    decide
  · have h := ((c8_amended_inStock { inStock := some "true" }).1 "true" rfl).1
    rw [h]
    decide
  · exact ((c8_amended_inStock { inStock := none }).2 rfl).1

/-! ### C9 -/
/-- C9: a search request without a query parameter is answered with 400,
success false and the message Search query is required, identically for
every store state (the store is never consulted). -/
theorem c9_searchAuthors_noQuery (s : Store) (nationality : Option String)
    (limit : Nat) :
    searchAuthors s none nationality limit =
      .badRequest "Search query is required" ∧
    (searchAuthors s none nationality limit).status = 400 ∧
    (searchAuthors s none nationality limit).success = false :=
  ⟨rfl, rfl, rfl⟩

/-! ### C10 -/
/-- C10: with no sortBy and no order parameter the extended getAllAuthors
defaults to the name-ascending sort and returns exactly the basic
getAllAuthors response, author list and pagination metadata included. -/
theorem c10_getAllAuthors_default_equiv (s : Store) (page limit : Nat)
    (p : AuthorListParams) :
    getAllAuthors s page limit p = getAllAuthorsExt s page limit p none none := by
  have hle : (fun a b => authorFieldLe "name" a b) = authorNameAsc := by
    funext a b
    simp [authorFieldLe, authorNameAsc]
  simp [getAllAuthors, getAllAuthorsExt, hle]

/-- C1 (code bug in the basic getAllBooks): the basic controller passes the
wrapper object around the built filter to find, so on a store of 12 Fantasy
books and one Mystery book the genre=Fantasy page=2 limit=5 request either
returns a non-Fantasy book (filter stripped) or no book at all (filter kept),
even though total still reports 12; the extended getAllBooks at the same
request returns 5 Fantasy items with currentPage 2 and totalPages 3 as the
claim states. -/
theorem c1_getAllBooks_filter_bug :
    ((getAllBooksBasic true c1Store 2 5 { genre := some "Fantasy" }).data.any
        (fun b => !(b.genre == "Fantasy")) = true) ∧
    (getAllBooksBasic false c1Store 2 5 { genre := some "Fantasy" }).data.length = 0 ∧
    (getAllBooksBasic true c1Store 2 5 { genre := some "Fantasy" }).total = 12 ∧
    (getAllBooksBasic false c1Store 2 5 { genre := some "Fantasy" }).total = 12 ∧
    (getAllBooks c1Store 2 5 { genre := some "Fantasy" }).data.length = 5 ∧
    ((getAllBooks c1Store 2 5 { genre := some "Fantasy" }).data.all
        (fun b => b.genre == "Fantasy") = true) ∧
    (getAllBooks c1Store 2 5 { genre := some "Fantasy" }).currentPage = 2 ∧
    (getAllBooks c1Store 2 5 { genre := some "Fantasy" }).totalPages = 3 := by
  decide

/-- Counterexample for C4: the author existence check and schema validation
run before the insert, so a duplicate-isbn request naming a non-existent
author is answered 404 Author-not-found, and one failing validation (pages 0)
is answered with the generic 400, not the duplicate-ISBN conflict. -/
theorem c4_counterexample :
    ¬ c4Statement ∧
    (createBook c4Store
        { title := some "d", author := 2, isbn := some "1111111111" } 9 9).1 =
      .notFound "Author not found" ∧
    (createBook c4Store
        { title := some "d", author := 1, isbn := some "1111111111",
          pages := some 0 } 9 9).1 =
      .invalid "Failed to create book" := by
  refine ⟨?_, by decide, by decide⟩
  intro h
  have h2 := h c4Store
    { title := some "d", author := 2, isbn := some "1111111111" } 9 9
    (by decide)
  exact absurd h2 (by decide)

/-- C4 amended: a create-book request that passes the author and (extended
variant) category existence checks and schema validation, and whose isbn
collides with a stored Book, is answered with the duplicate-ISBN 400 conflict
and the store is unchanged, in both createBook variants. -/
theorem c4_amended_duplicateIsbn (s : Store) (i : BookInput) (newId now : Nat)
    (hA : (findAuthor s i.author).isSome = true)
    (hC : ∀ cid, i.category = some cid → (findCategory s cid).isSome = true)
    (hV : bookInputValid i = true)
    (hdup : s.books.any (fun b => b.isbn == i.isbn) = true) :
    createBook s i newId now =
      (.conflict "Book with this ISBN already exists", s) ∧
    (createBook s i newId now).1.status = 400 ∧
    createBookBasic s i newId now =
      (.conflict "Book with this ISBN already exists", s) := by
  obtain ⟨a, ha⟩ := Option.isSome_iff_exists.mp hA
  have hdoc : createBookDoc s i newId now =
      (.conflict "Book with this ISBN already exists", s) := by
    simp [createBookDoc, hV, hdup]
  have hmain : createBook s i newId now =
      (.conflict "Book with this ISBN already exists", s) := by
    cases hcat : i.category with
    | none => simp [createBook, ha, hcat, hdoc]
    | some cid =>
      obtain ⟨c, hc⟩ := Option.isSome_iff_exists.mp (hC cid hcat)
      simp [createBook, ha, hcat, hc, hdoc]
  refine ⟨hmain, ?_, by simp [createBookBasic, ha, hdoc]⟩
  rw [hmain]
  rfl

/-- Witness for C4 amended: a valid duplicate-isbn request under the existing
author conflicts and leaves the store unchanged. -/
theorem c4_amended_duplicateIsbn_witness :
    createBook c4Store
        { title := some "d", author := 1, isbn := some "1111111111" } 9 9 =
      (.conflict "Book with this ISBN already exists", c4Store) := by
  exact (c4_amended_duplicateIsbn c4Store
    { title := some "d", author := 1, isbn := some "1111111111" } 9 9
    (by decide) (by intro cid hcid; cases hcid) (by decide) (by decide)).1

/-! ### C7 -/
theorem charListLe_total : ∀ a b : List Char,
    charListLe a b = true ∨ charListLe b a = true
  | [], _ => Or.inl rfl
  | _ :: _, [] => Or.inr rfl
  | a :: as, b :: bs => by
    rcases lt_trichotomy a b with h | h | h
    · exact Or.inl (by simp [charListLe, h])
    · subst h
      rcases charListLe_total as bs with ih | ih
      · exact Or.inl (by simp [charListLe, lt_irrefl, ih])
      · exact Or.inr (by simp [charListLe, lt_irrefl, ih])
    · exact Or.inr (by simp [charListLe, h])

theorem charListLe_trans : ∀ a b c : List Char, charListLe a b = true →
    charListLe b c = true → charListLe a c = true
  | [], _, _, _, _ => rfl
  | _ :: _, [], _, hab, _ => by simp [charListLe] at hab
  | _ :: _, _ :: _, [], _, hbc => by simp [charListLe] at hbc
  | a :: as, b :: bs, c :: cs, hab, hbc => by
    rcases lt_trichotomy a b with h1 | h1 | h1
    · rcases lt_trichotomy b c with h2 | h2 | h2
      · simp [charListLe, h1.trans h2]
      · subst h2
        simp [charListLe, h1]
      · simp [charListLe, asymm h2, h2] at hbc
    · subst h1
      rcases lt_trichotomy a c with h2 | h2 | h2
      · simp [charListLe, h2]
      · subst h2
        simp only [charListLe, lt_irrefl, if_false] at hab hbc ⊢
        exact charListLe_trans as bs cs hab hbc
      · simp [charListLe, asymm h2, h2] at hbc
    · simp [charListLe, asymm h1, h1] at hab

theorem strLe_total (a b : String) : strLe a b = true ∨ strLe b a = true :=
  charListLe_total a.data b.data

theorem strLe_trans (a b c : String) (hab : strLe a b = true)
    (hbc : strLe b c = true) : strLe a c = true :=
  charListLe_trans a.data b.data c.data hab hbc

theorem ratingTitleLe_total (a b : Book) :
    ratingTitleLe a b = true ∨ ratingTitleLe b a = true := by
  simp only [ratingTitleLe, Bool.or_eq_true, Bool.and_eq_true, decide_eq_true_eq]
  rcases lt_trichotomy a.rating b.rating with h | h | h
  · exact Or.inr (Or.inl h)
  · rcases strLe_total a.title b.title with ht | ht
    · exact Or.inl (Or.inr ⟨h, ht⟩)
    · exact Or.inr (Or.inr ⟨h.symm, ht⟩)
  · exact Or.inl (Or.inl h)

theorem ratingTitleLe_trans (a b c : Book) (hab : ratingTitleLe a b = true)
    (hbc : ratingTitleLe b c = true) : ratingTitleLe a c = true := by
  simp only [ratingTitleLe, Bool.or_eq_true, Bool.and_eq_true,
    decide_eq_true_eq] at hab hbc ⊢
  rcases hab with h1 | ⟨h1, t1⟩
  · rcases hbc with h2 | ⟨h2, t2⟩
    · exact Or.inl (h2.trans h1)
    · exact Or.inl (h2 ▸ h1)
  · rcases hbc with h2 | ⟨h2, t2⟩
    · exact Or.inl (lt_of_lt_of_eq h2 h1.symm)
    · exact Or.inr ⟨h1.trans h2, strLe_trans _ _ _ t1 t2⟩

theorem optStrLe_total (a b : Option String) :
    optStrLe a b = true ∨ optStrLe b a = true := by
  cases a <;> cases b <;> simp [optStrLe]
  exact strLe_total _ _

theorem optStrLe_trans (a b c : Option String) (hab : optStrLe a b = true)
    (hbc : optStrLe b c = true) : optStrLe a c = true := by
  cases a <;> cases b <;> cases c <;> simp_all [optStrLe]
  exact strLe_trans _ _ _ hab hbc

theorem groupNameLe_total (a b : CategoryGroup) :
    groupNameLe a b = true ∨ groupNameLe b a = true :=
  optStrLe_total _ _

theorem groupNameLe_trans (a b c : CategoryGroup)
    (hab : groupNameLe a b = true) (hbc : groupNameLe b c = true) :
    groupNameLe a c = true :=
  optStrLe_trans _ _ _ hab hbc

theorem renameUncategorized_books (g : CategoryGroup) :
    (renameUncategorized g).books = g.books := by
  simp only [renameUncategorized]
  split <;> rfl

theorem renameUncategorized_categoryId (g : CategoryGroup) :
    (renameUncategorized g).categoryId = g.categoryId := by
  simp only [renameUncategorized]
  split <;> rfl

theorem mkCategoryGroup_categoryId (s : Store) (k : Option Nat) :
    (mkCategoryGroup s k).categoryId = k := rfl

theorem mkCategoryGroup_books (s : Store) (k : Option Nat) :
    (mkCategoryGroup s k).books =
      ((ratedSorted s).filter (fun b => b.category == k)).take 10 := rfl

theorem mkCategoryGroup_name_none (s : Store) :
    (mkCategoryGroup s none).categoryName = none := rfl

/-- Every output group is a key group: its books are the first ten of the
globally sorted rated books of its own category key. -/
theorem topRated_group_books (s : Store) (g : CategoryGroup)
    (hg : g ∈ getTopRatedBooksByCategory s) :
    g.books = ((ratedSorted s).filter
        (fun b => b.category == g.categoryId)).take 10 := by
  simp only [getTopRatedBooksByCategory] at hg
  rcases List.mem_map.mp hg with ⟨g1, hg1, rfl⟩
  rcases List.mem_map.mp (mem_sortByLe.mp hg1) with ⟨k, hk, rfl⟩
  rw [renameUncategorized_books, renameUncategorized_categoryId,
    mkCategoryGroup_categoryId, mkCategoryGroup_books]

theorem length_filter_ratedSorted (s : Store) (k : Option Nat) :
    ((ratedSorted s).filter (fun b => b.category == k)).length =
      ratedCount s k := by
  exact ((perm_sortByLe ratingTitleLe _).filter (fun b => b.category == k)).length_eq

/-- Counterexample for C7: on `c7Store` the rated book b11 is dropped by the
10-per-group slice, and the Uncategorized group is emitted first (its sort
key is the missing lookup name, which precedes every string), so the groups
are not ascending by rendered name. -/
theorem c7_counterexample :
    ¬ c7Statement ∧
    (getTopRatedBooksByCategory c7Store).map (fun g => g.categoryName.getD "")
      = ["Uncategorized", "Art"] := by
  constructor
  · intro h
    have h1 := (h c7Store).1
      { id := 11, title := "b11", author := 1, rating := 5, category := some 1 }
      (by decide) (by decide)
    exact absurd h1 (by decide)
  · decide

/-- C7 amended: the view keeps only rated books of the store, at most 10 per
group and exactly the rated books of a category when that category has at
most 10 of them; each group is sorted by rating descending / title
ascending; each rated book has a group for its category; the groups are
ordered by their looked-up category name with nameless groups (null or
dangling category) first and named groups ascending; the null-category group
is rendered as the synthetic Uncategorized group after that ordering. -/
theorem c7_amended_topRated (s : Store) :
    (∀ g ∈ getTopRatedBooksByCategory s, g.books.length ≤ 10) ∧
    (∀ g ∈ getTopRatedBooksByCategory s,
      g.books.Pairwise (fun a b => ratingTitleLe a b = true)) ∧
    (∀ g ∈ getTopRatedBooksByCategory s, ∀ b ∈ g.books,
      0 < b.rating ∧ b ∈ s.books ∧ b.category = g.categoryId) ∧
    (∀ b ∈ s.books, 0 < b.rating →
      ∃ g ∈ getTopRatedBooksByCategory s, g.categoryId = b.category) ∧
    (∀ g ∈ getTopRatedBooksByCategory s, ratedCount s g.categoryId ≤ 10 →
      ∀ b ∈ s.books, 0 < b.rating → b.category = g.categoryId → b ∈ g.books) ∧
    ((getTopRatedBooksByCategory s).map (fun g =>
        if g.categoryId = none then none else g.categoryName)).Pairwise
      (fun x y => optStrLe x y = true) ∧
    (∀ g ∈ getTopRatedBooksByCategory s, g.categoryId = none →
      g.categoryName = some "Uncategorized" ∧
      g.categorySlug = some "uncategorized") := by
  have hsorted : (ratedSorted s).Pairwise (fun a b => ratingTitleLe a b = true) :=
    pairwise_sortByLe ratingTitleLe_total ratingTitleLe_trans _
  refine ⟨?_, ?_, ?_, ?_, ?_, ?_, ?_⟩
  · intro g hg
    rw [topRated_group_books s g hg]
    exact List.length_take_le _ _
  · intro g hg
    rw [topRated_group_books s g hg]
    exact List.Pairwise.sublist
      ((List.take_sublist _ _).trans (List.filter_sublist _)) hsorted
  · intro g hg b hb
    rw [topRated_group_books s g hg] at hb
    obtain ⟨hb2, hcat⟩ := List.mem_filter.mp (List.mem_of_mem_take hb)
    obtain ⟨hbs, hr⟩ := List.mem_filter.mp (mem_sortByLe.mp hb2)
    exact ⟨by simpa using hr, hbs, by simpa using hcat⟩
  · intro b hb hr
    refine ⟨renameUncategorized (mkCategoryGroup s b.category), ?_, ?_⟩
    · simp only [getTopRatedBooksByCategory]
      refine List.mem_map.mpr ⟨mkCategoryGroup s b.category, ?_, rfl⟩
      refine mem_sortByLe.mpr (List.mem_map.mpr ⟨b.category, ?_, rfl⟩)
      refine List.mem_dedup.mpr (List.mem_map.mpr ⟨b, ?_, rfl⟩)
      exact mem_sortByLe.mpr (List.mem_filter.mpr ⟨hb, by simpa using hr⟩)
    · rw [renameUncategorized_categoryId, mkCategoryGroup_categoryId]
  · intro g hg hc b hb hr hcat
    rw [topRated_group_books s g hg]
    rw [List.take_of_length_le]
    · exact List.mem_filter.mpr
        ⟨mem_sortByLe.mpr (List.mem_filter.mpr ⟨hb, by simpa using hr⟩),
          by simp [hcat]⟩
    · rw [length_filter_ratedSorted]
      exact hc
  · simp only [getTopRatedBooksByCategory]
    rw [List.map_map]
    have hcongr : ∀ g1 ∈ sortByLe groupNameLe
        ((((ratedSorted s).map (fun b => b.category)).dedup).map (mkCategoryGroup s)),
        ((fun g => if g.categoryId = none then none else g.categoryName) ∘
          renameUncategorized) g1 = g1.categoryName := by
      intro g1 hg1
      rcases List.mem_map.mp (mem_sortByLe.mp hg1) with ⟨k, hk, rfl⟩
      simp only [Function.comp_apply, renameUncategorized_categoryId,
        mkCategoryGroup_categoryId]
      cases k with
      | none => simp [mkCategoryGroup_name_none]
      | some c => simp [renameUncategorized, mkCategoryGroup_categoryId]
    rw [List.map_congr_left hcongr]
    exact List.pairwise_map.mpr
      (pairwise_sortByLe groupNameLe_total groupNameLe_trans _)
  · intro g hg hnone
    simp only [getTopRatedBooksByCategory] at hg
    rcases List.mem_map.mp hg with ⟨g1, hg1, rfl⟩
    rw [renameUncategorized_categoryId] at hnone
    constructor <;> simp [renameUncategorized, hnone]

/-- Witness for C7 amended: on the counterexample store, book b01 is rated,
so the view has a group for its category. -/
theorem c7_amended_topRated_witness :
    ∃ g ∈ getTopRatedBooksByCategory c7Store, g.categoryId = some 1 := by
  have h := (c7_amended_topRated c7Store).2.2.2.1
    { id := 1, title := "b01", author := 1, rating := 5, category := some 1 }
    (by decide) (by decide)
  exact h

end LibBE
